import Mathlib

/-!
nalicli.c: geolocation through the external `nali` program.

A shallow embedding of `src/nalicli.c`.

* A `char` array is a `List Nat` of byte values; its capacity is its length.
  A pointer into an array is an offset into the list.
* The operating system is explicit: the process keeps a table of the children
  it has forked and not yet waited for, and every call receives a record
  saying how the system calls of that call turn out (does `fork` succeed,
  what does the child print, with which status does it end).
* A store through the `res` pointer is described by the buffer contents after
  the call together with the number of bytes the call stored, so that a store
  past the capacity of the buffer is visible as `stored > capacity`.
-/

namespace Nalicli

/-! ## C strings and the libc routines the file uses -/

/-- ASCII text as the byte values a C `char` array holds. -/
def ascii (s : String) : List Nat := s.toList.map Char.toNat

/-- The C string stored at the start of `mem`: the bytes before the first NUL. -/
def cstring (mem : List Nat) : List Nat := mem.takeWhile (fun b => b != 0)

/-- Offset of the first place where `needle` starts inside `hay`. -/
def find (needle : List Nat) : List Nat → Option Nat
  | [] => if needle.isEmpty then some 0 else none
  | h :: t => if needle.isPrefixOf (h :: t) then some 0 else (find needle t).map (· + 1)

/-- `strstr (haystack, needle)`: both arguments are read as C strings; the
result is the offset of the first occurrence, `none` standing for `NULL`. -/
def strstr (haystack needle : List Nat) : Option Nat :=
  find (cstring needle) (cstring haystack)

/-- `strncpy (dest, src, n)`, the part that lands inside `dest`: the first
loop copies bytes of `src` up to its NUL, the second one pads with NUL until
`n` bytes in all have been stored. No NUL is stored when `src` has `n` or more
bytes before its terminator. -/
def strncpy : List Nat → List Nat → Nat → List Nat
  | [], _, _ => []
  | d :: ds, _, 0 => d :: ds
  | _ :: ds, [], n + 1 => 0 :: strncpy ds [] n
  | _ :: ds, c :: cs, n + 1 =>
    if c = 0 then 0 :: strncpy ds [] n else c :: strncpy ds cs n

/-- `strcpy (dest, src)`, the part that lands inside `dest`: the C string at
`src` followed by its terminating NUL. -/
def strcpy (dest src : List Nat) : List Nat :=
  ((cstring src ++ [0]).take dest.length) ++ dest.drop (cstring src ++ [0]).length

/-- Conversion of a pointer difference to `size_t` (64 bits). -/
def size_t (d : Int) : Nat := (d % 2 ^ 64).toNat

/-! ## The process and its children -/

/-- A forked child: the command line it executes and the status word that
`wait` reports for it (0 exactly when it exited with code 0). -/
structure Child where
  argv : List (List Nat)
  status : Int
  deriving DecidableEq, Repr

/-- State of the calling process. `children` are the children forked and not
yet waited for, oldest first; `log` lists the command line of every child
ever forked. -/
structure Proc where
  children : List Child
  log : List (List (List Nat))
  deriving DecidableEq, Repr

/-- A process that has forked nothing yet. -/
def Proc.init : Proc := ⟨[], []⟩

/-- `fork ()` followed, in the child, by `execlp` of `argv`. When `fork`
fails no child exists and the parent carries on (the code only tests
`pid == 0`). -/
def fork (ok : Bool) (argv : List (List Nat)) (status : Int) (s : Proc) : Proc :=
  if ok then ⟨s.children ++ [⟨argv, status⟩], s.log ++ [argv]⟩ else s

/-- `wait (&res)`: reports the status of a terminated child and removes it
from the table. A child left over from an earlier call has terminated long
before a child forked just now, so the oldest one is reported. With no child
at all `wait` fails and `res` keeps the indeterminate value `junk` it had. -/
def wait (junk : Int) (s : Proc) : Int × Proc :=
  match s.children with
  | [] => (junk, s)
  | c :: rest => (c.status, ⟨rest, s.log⟩)

/-! ## is_geoip_resource and init_geoip -/

/-- What the system does during one call of `is_geoip_resource`. `status`
is the status word of the probe child `nali -v` (it covers a failed
`execlp`, after which the child calls `exit (1)`). -/
structure ProbeEnv where
  forkOk : Bool
  status : Int
  junk : Int
  deriving DecidableEq, Repr

/-- The command line of the version probe. -/
def probeArgv : List (List Nat) := [ascii "nali", ascii "-v"]

/-- The function `is_geoip_resource`. -/
def is_geoip_resource (e : ProbeEnv) (s : Proc) : Int × Proc :=
  let s1 := fork e.forkOk probeArgv e.status s
  let (res, s2) := wait e.junk s1
  (if res = 0 then 1 else 0, s2)

/-- The function `init_geoip`: `none` is the process ended by `FATAL`. -/
def init_geoip (e : ProbeEnv) (s : Proc) : Option Proc :=
  let (r, s1) := is_geoip_resource e s
  if r = 0 then none else some s1

/-! ## geoip_lookup -/

/-- What the system does during one call of `geoip_lookup`. `chunks` is what
the child writes to its standard output, cut the way successive `read` calls
on the pipe would deliver it. -/
structure LookupEnv where
  pipeOk : Bool
  forkOk : Bool
  readErr : Bool
  chunks : List (List Nat)
  status : Int
  deriving DecidableEq, Repr

/-- One `read (fd, buf, count)` on the pipe: the length it returns and the
bytes it stores. A failed read returns -1; with no writer (failed `fork`) or
no data before the child closes the pipe it returns 0; otherwise it delivers
the data at hand, at most `count` bytes of it. -/
def read (e : LookupEnv) (count : Nat) : Int × List Nat :=
  if e.readErr then (-1, [])
  else if !e.forkOk then (0, [])
  else match e.chunks.filter (fun c => !c.isEmpty) with
    | [] => (0, [])
    | c :: _ => (((c.take count).length : Nat), c.take count)

/-- Result of `geoip_lookup`: the returned code, the `res` buffer after the
call, the number of bytes stored through `res` (at offsets `0 .. stored-1`),
the text in `buf` that was searched, and the process state. -/
structure LookupOut where
  ret : Int
  city : List Nat
  stored : Nat
  parsed : List Nat
  proc : Proc
  deriving DecidableEq, Repr

/-- The function `geoip_lookup (res, ip)`. When `n` is larger than the
capacity of `res` the store of `strncpy` runs past the buffer: the result
records the count `n` and the bytes that land inside `res`; what the running
process does from there on is undefined and is not described. -/
def geoip_lookup (e : LookupEnv) (res ip : List Nat) (s : Proc) : LookupOut :=
  if !e.pipeOk then ⟨1, res, 0, [], s⟩
  else
    let s1 := fork e.forkOk [ascii "nali", ip] e.status s
    let (len, data) := read e (1024 - 1)
    if len ≤ 0 then ⟨1, res, 0, [], s1⟩
    else
      let buf := data ++ [0]
      match strstr buf (ascii " [") with
      | none => ⟨1, res, 0, data, s1⟩
      | some st =>
        let start := st + 2
        match strstr buf (ascii "]") with
        | none => ⟨1, res, 0, data, s1⟩
        | some en =>
          let n := size_t ((en : Int) - (start : Int))
          ⟨0, strncpy res (buf.drop start) n, n, data, s1⟩

/-- The call captures `out`: the pipe could be made and the one `read` of the
call returned the non-empty text `out`. -/
def captures (e : LookupEnv) (out : List Nat) : Prop :=
  e.pipeOk = true ∧ out ≠ [] ∧ read e (1024 - 1) = ((out.length : Int), out)

instance (e : LookupEnv) (out : List Nat) : Decidable (captures e out) :=
  inferInstanceAs
    (Decidable (e.pipeOk = true ∧ out ≠ [] ∧ read e (1024 - 1) = ((out.length : Int), out)))

/-! ## set_geolocation -/

/-- Result of `set_geolocation`: the returned code, the three buffers, the
number of bytes stored into `city`, and the process state. -/
structure GeoOut where
  ret : Int
  continent : List Nat
  country : List Nat
  city : List Nat
  cityStored : Nat
  proc : Proc
  deriving DecidableEq, Repr

/-- The function `set_geolocation (host, continent, country, city)`. The
three buffers are separate objects; a city store past the capacity shows in
`cityStored` only. -/
def set_geolocation (pe : ProbeEnv) (le : LookupEnv)
    (host continent country city : List Nat) (s : Proc) : GeoOut :=
  let (avail, s1) := is_geoip_resource pe s
  if avail = 0 then ⟨1, continent, country, city, 0, s1⟩
  else
    let continent1 := strcpy continent (ascii " ")
    let country1 := strcpy country (ascii " ")
    let r := geoip_lookup le city host s1
    if r.ret = 1 then ⟨1, continent1, country1, r.city, r.stored, r.proc⟩
    else ⟨0, continent1, country1, r.city, r.stored, r.proc⟩

/-! ## Sequences of calls -/

/-- One call of the public interface, with the behaviour of the system
during it. -/
inductive Call where
  | isGeoipResource (pe : ProbeEnv)
  | initGeoip (pe : ProbeEnv)
  | setGeolocation (pe : ProbeEnv) (le : LookupEnv) (host continent country city : List Nat)

/-- Process state after a call; `none` when `FATAL` ended the process. -/
def Call.run : Call → Proc → Option Proc
  | .isGeoipResource pe, s => some (is_geoip_resource pe s).2
  | .initGeoip pe, s => init_geoip pe s
  | .setGeolocation pe le host continent country city, s =>
    some (set_geolocation pe le host continent country city s).proc

/-- Process state after a sequence of calls. -/
def runCalls : List Call → Proc → Option Proc
  | [], s => some s
  | c :: cs, s => (c.run s).bind (runCalls cs)

/-! ## Sample inputs -/

/-- A probe that finds the tool. -/
def probeUp : ProbeEnv := ⟨true, 0, 0⟩

/-- A probe whose child ends with `exit (1)`. -/
def probeDown : ProbeEnv := ⟨true, 256, 0⟩

/-- A lookup whose child prints `out` in one piece and exits with code 0. -/
def prints (out : List Nat) : LookupEnv := ⟨true, true, false, [out], 0⟩

/-- A lookup whose child prints `out` in one piece and ends with `exit (1)`. -/
def printsAndFails (out : List Nat) : LookupEnv := ⟨true, true, false, [out], 256⟩

/-- A lookup whose child delivers its output in the given pieces and exits
with code 0. -/
def printsInPieces (pieces : List (List Nat)) : LookupEnv := ⟨true, true, false, pieces, 0⟩

/-- The host used in the examples. -/
def sampleHost : List Nat := ascii "1.2.3.4"

/-- The example output of the tool. -/
def sampleOutput : List Nat := ascii "1.2.3.4 [San Francisco, US] extra"

/-- A `char` array of `n` bytes, all of them the letter Z. -/
def filled (n : Nat) : List Nat := List.replicate n 90

/-! ## Facts about the libc routines -/

theorem ascii_marker : ascii " [" = [32, 91] := rfl

theorem ascii_close : ascii "]" = [93] := rfl

theorem ascii_space : ascii " " = [32] := rfl

theorem cstring_nil : cstring [] = [] := rfl

theorem cstring_cons_nul (l : List Nat) : cstring (0 :: l) = [] := by
  simp [cstring, List.takeWhile]

theorem cstring_cons (b : Nat) (l : List Nat) (hb : b ≠ 0) :
    cstring (b :: l) = b :: cstring l := by
  have h : (b != 0) = true := by simp [hb]
  rw [cstring, List.takeWhile_cons, h]; rfl

theorem cstring_append (l r : List Nat) (h : 0 ∉ l) :
    cstring (l ++ r) = l ++ cstring r := by
  induction l with
  | nil => rfl
  | cons b l ih =>
    have hb : b ≠ 0 := fun hb => h (by simp [hb])
    have hl : 0 ∉ l := fun hl => h (List.mem_cons_of_mem _ hl)
    rw [List.cons_append, cstring_cons _ _ hb, ih hl, List.cons_append]

theorem cstring_append_nul (l : List Nat) : cstring (l ++ [0]) = cstring l := by
  induction l with
  | nil => rfl
  | cons b l ih =>
    by_cases hb : b = 0
    · subst hb; rw [List.cons_append, cstring_cons_nul, cstring_cons_nul]
    · rw [List.cons_append, cstring_cons _ _ hb, cstring_cons _ _ hb, ih]

theorem cstring_isPrefix (l : List Nat) : cstring l <+: l :=
  List.takeWhile_prefix _

theorem find_cons_of_not (needle : List Nat) (a : Nat) (t : List Nat)
    (h : needle.isPrefixOf (a :: t) = false) :
    find needle (a :: t) = (find needle t).map (· + 1) := by
  rw [find, h]; rfl

theorem find_none (needle hay : List Nat) (h : ¬ needle <:+: hay) :
    find needle hay = none := by
  induction hay with
  | nil =>
    cases needle with
    | nil => exact absurd (List.infix_refl []) h
    | cons a t => rfl
  | cons a t ih =>
    have h1 : needle.isPrefixOf (a :: t) = false := by
      cases hp : needle.isPrefixOf (a :: t) with
      | false => rfl
      | true => exact absurd (List.isPrefixOf_iff_prefix.mp hp).isInfix h
    have h2 : ¬ needle <:+: t := fun hi => h (hi.trans (List.infix_cons (List.infix_refl t)))
    rw [find_cons_of_not _ _ _ h1, ih h2]; rfl

theorem find_marker (pre post : List Nat) (h : ¬ [32, 91] <:+: pre ++ [32]) :
    find [32, 91] (pre ++ 32 :: 91 :: post) = some pre.length := by
  induction pre with
  | nil => simp [find, List.isPrefixOf]
  | cons a pre ih =>
    have h2 : ¬ [32, 91] <:+: pre ++ [32] :=
      fun hi => h (hi.trans (List.infix_cons (List.infix_refl _)))
    have h1 : List.isPrefixOf [32, 91] (a :: (pre ++ 32 :: 91 :: post)) = false := by
      cases hp : List.isPrefixOf [32, 91] (a :: (pre ++ 32 :: 91 :: post)) with
      | false => rfl
      | true =>
        exfalso
        cases pre with
        | nil => simp [List.isPrefixOf] at hp
        | cons b pre =>
          simp [List.isPrefixOf] at hp
          apply h
          rw [← hp.1, ← hp.2]
          exact (List.prefix_append [32, 91] (pre ++ [32])).isInfix
    rw [List.cons_append, find_cons_of_not _ _ _ h1, ih h2]
    rfl

theorem find_close (pre post : List Nat) (h : 93 ∉ pre) :
    find [93] (pre ++ 93 :: post) = some pre.length := by
  induction pre with
  | nil => simp [find, List.isPrefixOf]
  | cons a pre ih =>
    have ha : a ≠ 93 := fun ha => h (by simp [ha])
    have hl : 93 ∉ pre := fun hl => h (List.mem_cons_of_mem _ hl)
    have h1 : List.isPrefixOf [93] (a :: (pre ++ 93 :: post)) = false := by
      simp [List.isPrefixOf]; exact fun e => ha e.symm
    rw [List.cons_append, find_cons_of_not _ _ _ h1, ih hl]
    rfl

theorem strncpy_zero (dest src : List Nat) : strncpy dest src 0 = dest := by
  cases dest <;> simp [strncpy]

theorem strncpy_prefix (loc : List Nat) (h : 0 ∉ loc) :
    ∀ dest rest : List Nat,
      strncpy dest (loc ++ rest) loc.length = loc.take dest.length ++ dest.drop loc.length := by
  induction loc with
  | nil => intro dest rest; simp [strncpy_zero]
  | cons c loc ih =>
    intro dest rest
    have hc : c ≠ 0 := fun hc => h (by simp [hc])
    have hl : 0 ∉ loc := fun hl => h (List.mem_cons_of_mem _ hl)
    cases dest with
    | nil => simp [strncpy]
    | cons d ds => simp [strncpy, hc, ih hl ds rest]

theorem size_t_of_small (a b : Nat) (h : a < 2 ^ 64) :
    size_t (((b + a : Nat) : Int) - (b : Int)) = a := by
  have : (((b + a : Nat) : Int) - (b : Int)) = (a : Int) := by push_cast; ring
  rw [this, size_t]
  have h2 : ((a : Int) % 2 ^ 64) = (a : Int) := by
    apply Int.emod_eq_of_lt (by positivity)
    exact_mod_cast h
  rw [h2]; simp

/-! ## Facts about geoip_lookup -/

theorem read_length_le (e : LookupEnv) (count : Nat) :
    (read e count).2.length ≤ count := by
  unfold read
  split
  · simp
  · split
    · simp
    · split <;> simp [List.length_take]

theorem captures_length_le (e : LookupEnv) (out : List Nat) (h : captures e out) :
    out.length ≤ 1023 := by
  have h1 := read_length_le e (1024 - 1)
  rw [h.2.2] at h1
  exact h1

theorem lookup_no_marker (e : LookupEnv) (res ip : List Nat) (s : Proc) (out : List Nat)
    (h : captures e out) (hm : strstr (out ++ [0]) (ascii " [") = none) :
    geoip_lookup e res ip s
      = ⟨1, res, 0, out, fork e.forkOk [ascii "nali", ip] e.status s⟩ := by
  obtain ⟨hp, hne, hr⟩ := h
  have hlen : ¬ ((out.length : Int) ≤ 0) := by
    have : 0 < out.length := List.length_pos.mpr hne
    omega
  simp only [geoip_lookup, hp, hr, hm, hlen]
  simp

theorem lookup_no_close (e : LookupEnv) (res ip : List Nat) (s : Proc) (out : List Nat)
    (st : Nat) (h : captures e out) (hm : strstr (out ++ [0]) (ascii " [") = some st)
    (hc : strstr (out ++ [0]) (ascii "]") = none) :
    geoip_lookup e res ip s
      = ⟨1, res, 0, out, fork e.forkOk [ascii "nali", ip] e.status s⟩ := by
  obtain ⟨hp, hne, hr⟩ := h
  have hlen : ¬ ((out.length : Int) ≤ 0) := by
    have : 0 < out.length := List.length_pos.mpr hne
    omega
  simp only [geoip_lookup, hp, hr, hm, hc, hlen]
  simp

theorem lookup_found (e : LookupEnv) (res ip : List Nat) (s : Proc) (out : List Nat)
    (st en : Nat) (h : captures e out)
    (hm : strstr (out ++ [0]) (ascii " [") = some st)
    (hc : strstr (out ++ [0]) (ascii "]") = some en) :
    geoip_lookup e res ip s
      = ⟨0, strncpy res ((out ++ [0]).drop (st + 2)) (size_t ((en : Int) - ((st + 2 : Nat) : Int))),
          size_t ((en : Int) - ((st + 2 : Nat) : Int)), out,
          fork e.forkOk [ascii "nali", ip] e.status s⟩ := by
  obtain ⟨hp, hne, hr⟩ := h
  have hlen : ¬ ((out.length : Int) ≤ 0) := by
    have : 0 < out.length := List.length_pos.mpr hne
    omega
  simp only [geoip_lookup, hp, hr, hm, hc, hlen]
  simp

theorem lookup_bracketed (e : LookupEnv) (res ip : List Nat) (s : Proc)
    (pre loc post : List Nat)
    (hcap : captures e (pre ++ ascii " [" ++ loc ++ ascii "]" ++ post))
    (hfirst : ¬ ascii " [" <:+: pre ++ ascii " ")
    (hloc : 93 ∉ loc) (hpre : 93 ∉ pre) (hnul : 0 ∉ pre ++ loc) :
    geoip_lookup e res ip s
      = ⟨0, loc.take res.length ++ res.drop loc.length, loc.length,
          pre ++ ascii " [" ++ loc ++ ascii "]" ++ post,
          fork e.forkOk [ascii "nali", ip] e.status s⟩ := by
  have hlen := captures_length_le e _ hcap
  rw [ascii_marker, ascii_close] at hcap hlen
  rw [ascii_marker, ascii_space] at hfirst
  rw [ascii_marker, ascii_close]
  have h0pre : 0 ∉ pre := fun h => hnul (List.mem_append_left _ h)
  have h0loc : 0 ∉ loc := fun h => hnul (List.mem_append_right _ h)
  have hshape : (pre ++ [32, 91] ++ loc ++ [93] ++ post) ++ [0]
      = (pre ++ 32 :: 91 :: loc) ++ 93 :: (post ++ [0]) := by simp
  have h0 : 0 ∉ pre ++ 32 :: 91 :: loc := by
    simp only [List.mem_append, List.mem_cons, not_or]
    exact ⟨h0pre, by decide, by decide, h0loc⟩
  have h93 : 93 ∉ pre ++ 32 :: 91 :: loc := by
    simp only [List.mem_append, List.mem_cons, not_or]
    exact ⟨hpre, by decide, by decide, hloc⟩
  have hcs : cstring ((pre ++ [32, 91] ++ loc ++ [93] ++ post) ++ [0])
      = (pre ++ 32 :: 91 :: loc) ++ 93 :: cstring (post ++ [0]) := by
    rw [hshape, cstring_append _ _ h0, cstring_cons 93 _ (by decide)]
  have hm : strstr ((pre ++ [32, 91] ++ loc ++ [93] ++ post) ++ [0]) (ascii " [")
      = some pre.length := by
    rw [strstr, hcs]
    have : cstring (ascii " [") = [32, 91] := by decide
    rw [this, List.append_assoc]
    exact find_marker pre _ hfirst
  have hc : strstr ((pre ++ [32, 91] ++ loc ++ [93] ++ post) ++ [0]) (ascii "]")
      = some (pre.length + 2 + loc.length) := by
    rw [strstr, hcs]
    have : cstring (ascii "]") = [93] := by decide
    rw [this, find_close _ _ h93]
    simp; omega
  have hsmall : loc.length < 2 ^ 64 := by
    simp at hlen; omega
  have hn : size_t (((pre.length + 2 + loc.length : Nat) : Int) - ((pre.length + 2 : Nat) : Int))
      = loc.length := size_t_of_small loc.length (pre.length + 2) hsmall
  have hdrop : ((pre ++ [32, 91] ++ loc ++ [93] ++ post) ++ [0]).drop (pre.length + 2)
      = loc ++ (93 :: (post ++ [0])) := by
    have : (pre ++ [32, 91] ++ loc ++ [93] ++ post) ++ [0]
        = (pre ++ [32, 91]) ++ (loc ++ (93 :: (post ++ [0]))) := by simp
    rw [this, List.drop_left' (by simp)]
  rw [lookup_found e res ip s _ _ _ hcap hm hc, hn, hdrop, strncpy_prefix loc h0loc]

theorem lookup_proc_irrelevant (e : LookupEnv) (res ip ip2 : List Nat) (s s2 : Proc) :
    (geoip_lookup e res ip s).ret = (geoip_lookup e res ip2 s2).ret
      ∧ (geoip_lookup e res ip s).stored = (geoip_lookup e res ip2 s2).stored
      ∧ (geoip_lookup e res ip s).city = (geoip_lookup e res ip2 s2).city := by
  unfold geoip_lookup
  by_cases hp : e.pipeOk = true
  · simp only [hp]
    cases hr : read e (1024 - 1) with
    | mk len data =>
      by_cases hl : len ≤ 0
      · simp [hl]
      · simp only [hl]
        cases hm : strstr (data ++ [0]) (ascii " [") with
        | none => simp
        | some st =>
          cases hc : strstr (data ++ [0]) (ascii "]") with
          | none => simp
          | some en => simp
  · simp [hp]

theorem lookup_ret_zero_or_one (e : LookupEnv) (res ip : List Nat) (s : Proc) :
    (geoip_lookup e res ip s).ret = 0 ∨ (geoip_lookup e res ip s).ret = 1 := by
  unfold geoip_lookup
  by_cases hp : e.pipeOk = true
  · simp only [hp]
    cases hr : read e (1024 - 1) with
    | mk len data =>
      by_cases hl : len ≤ 0
      · simp [hl]
      · simp only [hl]
        cases hm : strstr (data ++ [0]) (ascii " [") with
        | none => simp
        | some st =>
          cases hc : strstr (data ++ [0]) (ascii "]") with
          | none => simp
          | some en => simp
  · simp [hp]

theorem lookup_failure_stores_nothing (e : LookupEnv) (res ip : List Nat) (s : Proc)
    (h : (geoip_lookup e res ip s).ret = 1) :
    (geoip_lookup e res ip s).stored = 0 ∧ (geoip_lookup e res ip s).city = res := by
  revert h
  unfold geoip_lookup
  by_cases hp : e.pipeOk = true
  · simp only [hp]
    cases hr : read e (1024 - 1) with
    | mk len data =>
      by_cases hl : len ≤ 0
      · simp [hl]
      · simp only [hl]
        cases hm : strstr (data ++ [0]) (ascii " [") with
        | none => simp
        | some st =>
          cases hc : strstr (data ++ [0]) (ascii "]") with
          | none => simp
          | some en => simp
  · simp [hp]

/-! ## The location text is extracted (C1) -/

/-- C1, the claim as stated fails on two inputs. First, a NUL byte in front of
the marker: the output `1\0 [Paris]` contains the marker, has a closing bracket
after it and its location text fits in 8 bytes, yet the call returns 1 and
leaves the buffer alone, because `strstr` reads `buf` as a C string. Second, a
closing bracket in front of the marker: for `x] [San Francisco, US] extra` the
call returns 0 but is asked to store 2^64 - 3 bytes, and the 20 byte buffer
does not hold the text between the brackets followed by its old content. -/
theorem geoip_lookup_extracts_counterexample :
    (captures (prints (ascii "1" ++ [0] ++ ascii " [" ++ ascii "Paris" ++ ascii "]"))
        (ascii "1" ++ [0] ++ ascii " [" ++ ascii "Paris" ++ ascii "]")
      ∧ ¬ ascii " [" <:+: ascii "1" ++ [0] ++ ascii " "
      ∧ 93 ∉ ascii "Paris"
      ∧ (ascii "Paris").length ≤ (filled 8).length
      ∧ geoip_lookup (prints (ascii "1" ++ [0] ++ ascii " [" ++ ascii "Paris" ++ ascii "]"))
          (filled 8) sampleHost Proc.init
        = ⟨1, filled 8, 0, ascii "1" ++ [0] ++ ascii " [Paris]",
            ⟨[⟨[ascii "nali", sampleHost], 0⟩], [[ascii "nali", sampleHost]]⟩⟩)
    ∧ (captures
          (prints (ascii "x]" ++ ascii " [" ++ ascii "San Francisco, US" ++ ascii "]" ++ ascii " extra"))
          (ascii "x]" ++ ascii " [" ++ ascii "San Francisco, US" ++ ascii "]" ++ ascii " extra")
      ∧ ¬ ascii " [" <:+: ascii "x]" ++ ascii " "
      ∧ 93 ∉ ascii "San Francisco, US"
      ∧ (ascii "San Francisco, US").length ≤ (filled 20).length
      ∧ (geoip_lookup
          (prints (ascii "x]" ++ ascii " [" ++ ascii "San Francisco, US" ++ ascii "]" ++ ascii " extra"))
          (filled 20) sampleHost Proc.init).ret = 0
      ∧ (geoip_lookup
          (prints (ascii "x]" ++ ascii " [" ++ ascii "San Francisco, US" ++ ascii "]" ++ ascii " extra"))
          (filled 20) sampleHost Proc.init).stored = 2 ^ 64 - 3
      ∧ (geoip_lookup
          (prints (ascii "x]" ++ ascii " [" ++ ascii "San Francisco, US" ++ ascii "]" ++ ascii " extra"))
          (filled 20) sampleHost Proc.init).city = ascii "San Francisco, US] e") := by
  decide

/-- C1, amended: let the captured output be `pre ++ " [" ++ loc ++ "]" ++ post`
where the marker `" ["` does not start inside `pre` (so this is its first
occurrence), `loc` has no `]` (so the bracket after it is the first one that
follows the marker), `pre` has no `]` either, no NUL byte stands in `pre` or
`loc`, and `loc` is no longer than the city buffer. Then `geoip_lookup`
returns 0, stores exactly `loc.length` bytes, and the buffer holds `loc`
followed by its old content from offset `loc.length` on. -/
theorem geoip_lookup_extracts (e : LookupEnv) (res ip : List Nat) (s : Proc)
    (pre loc post : List Nat)
    (hcap : captures e (pre ++ ascii " [" ++ loc ++ ascii "]" ++ post))
    (hfirst : ¬ ascii " [" <:+: pre ++ ascii " ")
    (hloc : 93 ∉ loc) (hpre : 93 ∉ pre) (hnul : 0 ∉ pre ++ loc)
    (hfit : loc.length ≤ res.length) :
    (geoip_lookup e res ip s).ret = 0
      ∧ (geoip_lookup e res ip s).stored = loc.length
      ∧ (geoip_lookup e res ip s).city = loc ++ res.drop loc.length := by
  rw [lookup_bracketed e res ip s pre loc post hcap hfirst hloc hpre hnul]
  exact ⟨rfl, rfl, by rw [List.take_of_length_le hfit]⟩

/-- C1, the amended claim at the example of the specification: from
`1.2.3.4 [San Francisco, US] extra` the call copies `San Francisco, US`. -/
theorem geoip_lookup_extracts_witness :
    sampleOutput = ascii "1.2.3.4" ++ ascii " [" ++ ascii "San Francisco, US" ++ ascii "]"
        ++ ascii " extra"
      ∧ (geoip_lookup (prints sampleOutput) (filled 20) sampleHost Proc.init).ret = 0
      ∧ (geoip_lookup (prints sampleOutput) (filled 20) sampleHost Proc.init).stored = 17
      ∧ (geoip_lookup (prints sampleOutput) (filled 20) sampleHost Proc.init).city
          = ascii "San Francisco, US" ++ ascii "ZZZ" :=
  ⟨by decide,
    geoip_lookup_extracts (prints sampleOutput) (filled 20) sampleHost Proc.init
      (ascii "1.2.3.4") (ascii "San Francisco, US") (ascii " extra")
      (by decide) (by decide) (by decide) (by decide) (by decide) (by decide)⟩

/-! ## Stores into the city buffer and its capacity (C2) -/

/-- C2, the claim as stated fails: from `1.2.3.4 [San Francisco, US] extra`
the call stores the 17 bytes of the location text into a city buffer of
capacity 8, so the offsets 8 to 16 lie past the end of the buffer; the same
happens through `set_geolocation`. -/
theorem geoip_lookup_bounded_counterexample :
    captures (prints sampleOutput) sampleOutput
      ∧ (filled 8).length = 8
      ∧ (geoip_lookup (prints sampleOutput) (filled 8) sampleHost Proc.init).ret = 0
      ∧ (geoip_lookup (prints sampleOutput) (filled 8) sampleHost Proc.init).stored = 17
      ∧ (set_geolocation probeUp (prints sampleOutput) sampleHost (filled 8) (filled 8)
          (filled 8) Proc.init).cityStored = 17
      ∧ ¬ (geoip_lookup (prints sampleOutput) (filled 8) sampleHost Proc.init).stored
          ≤ (filled 8).length := by
  decide

/-- C2, amended: `geoip_lookup`, and `set_geolocation` through it, stores no
byte at or past the capacity of the city buffer when the lookup fails (it
then stores nothing), or when the captured output is
`pre ++ " [" ++ loc ++ "]" ++ post` with the first marker after `pre`, no `]`
in `pre` or `loc`, no NUL byte in `pre` or `loc`, and `loc` no longer than the
buffer. -/
theorem geoip_lookup_bounded (e : LookupEnv) (res ip : List Nat) (s : Proc)
    (pe : ProbeEnv) (continent country : List Nat)
    (h : (geoip_lookup e res ip s).ret = 1
      ∨ ∃ pre loc post : List Nat,
          captures e (pre ++ ascii " [" ++ loc ++ ascii "]" ++ post)
            ∧ ¬ ascii " [" <:+: pre ++ ascii " "
            ∧ 93 ∉ loc ∧ 93 ∉ pre ∧ 0 ∉ pre ++ loc
            ∧ loc.length ≤ res.length) :
    (geoip_lookup e res ip s).stored ≤ res.length
      ∧ (set_geolocation pe e ip continent country res s).cityStored ≤ res.length := by
  have hs : (geoip_lookup e res ip s).stored ≤ res.length := by
    rcases h with h | ⟨pre, loc, post, hcap, hfirst, hloc, hpre, hnul, hfit⟩
    · rw [(lookup_failure_stores_nothing e res ip s h).1]; exact Nat.zero_le _
    · rw [lookup_bracketed e res ip s pre loc post hcap hfirst hloc hpre hnul]
      exact hfit
  refine ⟨hs, ?_⟩
  unfold set_geolocation
  cases hp : is_geoip_resource pe s with
  | mk avail s1 =>
    by_cases ha : avail = 0
    · simp [ha]
    · have hirr := (lookup_proc_irrelevant e res ip ip s1 s).2.1
      by_cases hr : (geoip_lookup e res ip s1).ret = 1
      · simp [ha, hr, hirr, hs]
      · simp [ha, hr, hirr, hs]

/-- C2, the amended claim at an input: the 17 bytes of `San Francisco, US` stay
inside a city buffer of 20 bytes. -/
theorem geoip_lookup_bounded_witness :
    (geoip_lookup (prints sampleOutput) (filled 20) sampleHost Proc.init).stored
        ≤ (filled 20).length
      ∧ (set_geolocation probeUp (prints sampleOutput) sampleHost (filled 8) (filled 8)
          (filled 20) Proc.init).cityStored ≤ (filled 20).length :=
  geoip_lookup_bounded (prints sampleOutput) (filled 20) sampleHost Proc.init probeUp
    (filled 8) (filled 8)
    (Or.inr ⟨ascii "1.2.3.4", ascii "San Francisco, US", ascii " extra",
      by decide, by decide, by decide, by decide, by decide, by decide⟩)

/-! ## Output without a closing bracket after the marker (C3) -/

theorem lookup_no_bracket_fails (e : LookupEnv) (res ip : List Nat) (s : Proc)
    (out : List Nat) (hcap : captures e out) (hno : 93 ∉ out) :
    (geoip_lookup e res ip s).ret = 1 := by
  have hc : strstr (out ++ [0]) (ascii "]") = none := by
    rw [strstr, cstring_append_nul]
    apply find_none
    intro hi
    have h1 : cstring (ascii "]") <:+: out := hi.trans (cstring_isPrefix out).isInfix
    have h2 : cstring (ascii "]") = [93] := by decide
    rw [h2] at h1
    exact hno (h1.subset (List.mem_singleton_self 93))
  cases hm : strstr (out ++ [0]) (ascii " [") with
  | none => rw [lookup_no_marker e res ip s out hcap hm]
  | some st => rw [lookup_no_close e res ip s out st hcap hm hc]

/-- C3, the code at the failing input: the output `] [abc` contains the marker
and has no `]` after it, yet `geoip_lookup` returns 0. `strstr (buf, "]")`
searches from the start of `buf`, finds the bracket at offset 0 in front of
the marker, and `end - start` is -3, so that `strncpy` is asked to store
2^64 - 3 bytes into the 8 byte buffer. -/
theorem geoip_lookup_unterminated_returns_zero :
    captures (prints (ascii "]" ++ ascii " [" ++ ascii "abc")) (ascii "] [abc")
      ∧ ascii " [" <:+: ascii "] [abc"
      ∧ 93 ∉ ascii "abc"
      ∧ strstr (ascii "] [abc" ++ [0]) (ascii " [") = some 1
      ∧ strstr (ascii "] [abc" ++ [0]) (ascii "]") = some 0
      ∧ size_t ((0 : Int) - ((1 + 2 : Nat) : Int)) = 2 ^ 64 - 3
      ∧ (geoip_lookup (prints (ascii "] [abc")) (filled 8) sampleHost Proc.init).ret = 0
      ∧ (geoip_lookup (prints (ascii "] [abc")) (filled 8) sampleHost Proc.init).stored
          = 2 ^ 64 - 3
      ∧ (geoip_lookup (prints (ascii "] [abc")) (filled 8) sampleHost Proc.init).city
          = ascii "abc" ++ [0, 0, 0, 0, 0] := by
  decide

/-! ## Output without the marker (C4) -/

/-- C4: when the captured output is not empty and does not contain the marker
`" ["`, `geoip_lookup` returns 1, stores nothing and leaves the city buffer
byte for byte as it was. -/
theorem geoip_lookup_no_marker (e : LookupEnv) (res ip : List Nat) (s : Proc)
    (out : List Nat) (hcap : captures e out) (hno : ¬ ascii " [" <:+: out) :
    (geoip_lookup e res ip s).ret = 1
      ∧ (geoip_lookup e res ip s).city = res
      ∧ (geoip_lookup e res ip s).stored = 0 := by
  have hm : strstr (out ++ [0]) (ascii " [") = none := by
    rw [strstr, cstring_append_nul]
    apply find_none
    intro hi
    have h1 : cstring (ascii " [") <:+: out := hi.trans (cstring_isPrefix out).isInfix
    have h2 : cstring (ascii " [") = ascii " [" := by decide
    rw [h2] at h1
    exact hno h1
  rw [lookup_no_marker e res ip s out hcap hm]
  exact ⟨rfl, rfl, rfl⟩

/-- C4 at an input: the output `1.2.3.4 unknown` has no marker, the call fails
and the buffer keeps its content. -/
theorem geoip_lookup_no_marker_witness :
    captures (prints (ascii "1.2.3.4 unknown")) (ascii "1.2.3.4 unknown")
      ∧ ¬ ascii " [" <:+: ascii "1.2.3.4 unknown"
      ∧ (geoip_lookup (prints (ascii "1.2.3.4 unknown")) (filled 8) sampleHost Proc.init).ret = 1
      ∧ (geoip_lookup (prints (ascii "1.2.3.4 unknown")) (filled 8) sampleHost Proc.init).city
          = filled 8
      ∧ (geoip_lookup (prints (ascii "1.2.3.4 unknown")) (filled 8) sampleHost Proc.init).stored
          = 0 :=
  ⟨by decide, by decide,
    geoip_lookup_no_marker (prints (ascii "1.2.3.4 unknown")) (filled 8) sampleHost Proc.init
      (ascii "1.2.3.4 unknown") (by decide) (by decide)⟩

/-! ## set_geolocation when the tool is missing (C5) -/

theorem is_geoip_resource_log (pe : ProbeEnv) (s : Proc) :
    (is_geoip_resource pe s).2.log = if pe.forkOk = true then s.log ++ [probeArgv] else s.log := by
  unfold is_geoip_resource wait fork
  cases pe.forkOk
  · cases hs : s.children <;> simp [hs]
  · cases hs : s.children <;> simp

/-- C5: for every host, when `is_geoip_resource` returns 0, `set_geolocation`
returns 1 and `geoip_lookup` is not run: the three buffers keep their content,
nothing is stored, the process is left in the state in which the probe left
it, and the only command line added to the log of forked children is the
probe (none when its `fork` failed), whatever the lookup would have done. -/
theorem set_geolocation_unavailable (pe : ProbeEnv) (le : LookupEnv)
    (host continent country city : List Nat) (s : Proc)
    (h : (is_geoip_resource pe s).1 = 0) :
    (set_geolocation pe le host continent country city s).ret = 1
      ∧ (set_geolocation pe le host continent country city s).continent = continent
      ∧ (set_geolocation pe le host continent country city s).country = country
      ∧ (set_geolocation pe le host continent country city s).city = city
      ∧ (set_geolocation pe le host continent country city s).cityStored = 0
      ∧ (set_geolocation pe le host continent country city s).proc = (is_geoip_resource pe s).2
      ∧ (set_geolocation pe le host continent country city s).proc.log
          = if pe.forkOk = true then s.log ++ [probeArgv] else s.log := by
  have hlog := is_geoip_resource_log pe s
  unfold set_geolocation
  cases hp : is_geoip_resource pe s with
  | mk avail s1 =>
    rw [hp] at h hlog
    simp only at h hlog
    simp [h, hlog]

/-- C5 at an input: the probe child ends with `exit (1)`; the call returns 1
and the log of forked children holds the probe alone. -/
theorem set_geolocation_unavailable_witness :
    (is_geoip_resource probeDown Proc.init).1 = 0
      ∧ (set_geolocation probeDown (prints sampleOutput) sampleHost (filled 8) (filled 8)
          (filled 20) Proc.init).ret = 1
      ∧ (set_geolocation probeDown (prints sampleOutput) sampleHost (filled 8) (filled 8)
          (filled 20) Proc.init).proc.log = [probeArgv] :=
  have h := set_geolocation_unavailable probeDown (prints sampleOutput) sampleHost (filled 8)
    (filled 8) (filled 20) Proc.init (by decide)
  ⟨by decide, h.1, h.2.2.2.2.2.2⟩

/-! ## set_geolocation when the tool is there (C6) -/

theorem strcpy_space (dest : List Nat) (h : 2 ≤ dest.length) :
    strcpy dest (ascii " ") = 32 :: 0 :: dest.drop 2 := by
  have h1 : cstring (ascii " ") ++ [0] = [32, 0] := by decide
  rw [strcpy, h1]
  match dest, h with
  | a :: b :: t, _ => simp

/-- What `set_geolocation` does once `is_geoip_resource` has returned 1, for
continent and country buffers with room for two bytes and a city store that
stays inside the city buffer: the two buffers start with a space and a NUL,
and the returned code is 0 when `geoip_lookup` returns 0 and 1 otherwise. -/
theorem set_geolocation_after_probe (pe : ProbeEnv) (le : LookupEnv)
    (host continent country city : List Nat) (s : Proc)
    (h : (is_geoip_resource pe s).1 = 1)
    (hc : 2 ≤ continent.length) (hk : 2 ≤ country.length)
    (_hin : (geoip_lookup le city host (is_geoip_resource pe s).2).stored ≤ city.length) :
    (set_geolocation pe le host continent country city s).continent
        = 32 :: 0 :: continent.drop 2
      ∧ (set_geolocation pe le host continent country city s).country
        = 32 :: 0 :: country.drop 2
      ∧ cstring (set_geolocation pe le host continent country city s).continent = ascii " "
      ∧ cstring (set_geolocation pe le host continent country city s).country = ascii " "
      ∧ (set_geolocation pe le host continent country city s).ret
        = if (geoip_lookup le city host (is_geoip_resource pe s).2).ret = 0 then 0 else 1 := by
  have h01 := lookup_ret_zero_or_one le city host (is_geoip_resource pe s).2
  have hsp : ∀ t : List Nat, cstring (32 :: 0 :: t) = ascii " " := by
    intro t
    rw [cstring_cons 32 _ (by decide), cstring_cons_nul]; rfl
  revert h h01
  unfold set_geolocation
  cases hp : is_geoip_resource pe s with
  | mk avail s1 =>
    intro h h01
    simp only at h h01
    have ha : ¬ avail = 0 := by omega
    rcases h01 with h0 | h1
    · simp [ha, h0, strcpy_space _ hc, strcpy_space _ hk, hsp]
    · simp [ha, h1, strcpy_space _ hc, strcpy_space _ hk, hsp]

/-- C6, the code at the failing input: a first `set_geolocation` finds the
tool, copies `San Francisco, US` into the 20 byte city buffer and returns 0;
its lookup child, which ended with `exit (1)` after printing, is never waited
for. In the second call the tool is available (the probe child is forked and
exits with code 0) and a lookup for the host would return 0, yet
`is_geoip_resource` takes the status of the older child from `wait`, so that
`set_geolocation` returns 1, leaves the continent and country buffers as they
were and forks no lookup child. -/
theorem set_geolocation_misses_available_tool :
    (set_geolocation probeUp (printsAndFails sampleOutput) sampleHost (filled 8) (filled 8)
        (filled 20) Proc.init).ret = 0
      ∧ (set_geolocation probeUp (printsAndFails sampleOutput) sampleHost (filled 8) (filled 8)
        (filled 20) Proc.init).cityStored = 17
      ∧ (set_geolocation probeUp (printsAndFails sampleOutput) sampleHost (filled 8) (filled 8)
        (filled 20) Proc.init).proc
          = ⟨[⟨[ascii "nali", sampleHost], 256⟩], [probeArgv, [ascii "nali", sampleHost]]⟩
      ∧ probeUp.forkOk = true ∧ probeUp.status = 0
      ∧ (geoip_lookup (prints sampleOutput) (filled 20) sampleHost
          ⟨[⟨probeArgv, 0⟩], [probeArgv, [ascii "nali", sampleHost], probeArgv]⟩).ret = 0
      ∧ set_geolocation probeUp (prints sampleOutput) sampleHost (filled 8) (filled 8)
          (filled 20)
          (set_geolocation probeUp (printsAndFails sampleOutput) sampleHost (filled 8) (filled 8)
            (filled 20) Proc.init).proc
        = ⟨1, filled 8, filled 8, filled 20, 0,
            ⟨[⟨probeArgv, 0⟩], [probeArgv, [ascii "nali", sampleHost], probeArgv]⟩⟩ := by
  decide

/-! ## The answer of is_geoip_resource (C7) -/

theorem is_geoip_resource_no_children (e : ProbeEnv) (s : Proc)
    (hs : s.children = []) (hf : e.forkOk = true) :
    (is_geoip_resource e s).1 = (if e.status = 0 then 1 else 0)
      ∧ (is_geoip_resource e s).2.children = [] := by
  simp [is_geoip_resource, fork, wait, hs, hf]

/-- C7, the code at the failing input: a first `set_geolocation` finds the
tool and leaves its lookup child, which exited with code 0, in the table of
children. In that state a probe whose own child ends with `exit (1)` makes
`is_geoip_resource` return 1, because `wait` hands out the status of the
older child; the probe child stays behind in the table. The other way round,
after a lookup child that ended with `exit (1)`, a probe whose child exits
with code 0 makes `is_geoip_resource` return 0. -/
theorem is_geoip_resource_reads_stale_status :
    (set_geolocation probeUp (prints sampleOutput) sampleHost (filled 8) (filled 8) (filled 20)
        Proc.init).proc.children = [⟨[ascii "nali", sampleHost], 0⟩]
      ∧ probeDown.forkOk = true ∧ probeDown.status ≠ 0
      ∧ (is_geoip_resource probeDown
          (set_geolocation probeUp (prints sampleOutput) sampleHost (filled 8) (filled 8)
            (filled 20) Proc.init).proc).1 = 1
      ∧ (is_geoip_resource probeDown
          (set_geolocation probeUp (prints sampleOutput) sampleHost (filled 8) (filled 8)
            (filled 20) Proc.init).proc).2.children = [⟨probeArgv, 256⟩]
      ∧ probeUp.forkOk = true ∧ probeUp.status = 0
      ∧ (is_geoip_resource probeUp
          (set_geolocation probeUp (printsAndFails sampleOutput) sampleHost (filled 8) (filled 8)
            (filled 20) Proc.init).proc).1 = 0 := by
  decide

/-! ## What geoip_lookup parses (C8) -/

theorem lookup_parsed (e : LookupEnv) (res ip : List Nat) (s : Proc) (out : List Nat)
    (hcap : captures e out) : (geoip_lookup e res ip s).parsed = out := by
  cases hm : strstr (out ++ [0]) (ascii " [") with
  | none => rw [lookup_no_marker e res ip s out hcap hm]
  | some st =>
    cases hc : strstr (out ++ [0]) (ascii "]") with
    | none => rw [lookup_no_close e res ip s out st hcap hm hc]
    | some en => rw [lookup_found e res ip s out st en hcap hm hc]

/-- C8, the claim as stated fails: the child prints `1.2.3.4 [Paris] ` in the
two pieces `1.2.3.4 ` and `[Paris] `. The whole output is 16 bytes long, but
the text that is parsed is the first piece alone, and the call returns 1
although the whole output holds a location. -/
theorem geoip_lookup_parses_whole_output_counterexample :
    (printsInPieces [ascii "1.2.3.4 ", ascii "[Paris] "]).chunks.flatten
        = ascii "1.2.3.4 [Paris] "
      ∧ (geoip_lookup (printsInPieces [ascii "1.2.3.4 ", ascii "[Paris] "]) (filled 8)
          sampleHost Proc.init).parsed = ascii "1.2.3.4 "
      ∧ (geoip_lookup (printsInPieces [ascii "1.2.3.4 ", ascii "[Paris] "]) (filled 8)
          sampleHost Proc.init).parsed
        ≠ ((printsInPieces [ascii "1.2.3.4 ", ascii "[Paris] "]).chunks.flatten).take 1023
      ∧ (geoip_lookup (printsInPieces [ascii "1.2.3.4 ", ascii "[Paris] "]) (filled 8)
          sampleHost Proc.init).ret = 1
      ∧ (geoip_lookup (prints (ascii "1.2.3.4 [Paris] ")) (filled 8)
          sampleHost Proc.init).ret = 0 := by
  decide

/-- C8, amended: `geoip_lookup` reads the pipe once. When the pipe and the
child could be made and the read does not fail, the text that is parsed is
the first non-empty piece `c` of output that the child delivers, cut to its
first 1023 bytes. It is the whole output of the child, cut to 1023 bytes,
when nothing follows that piece or the piece already fills the buffer. -/
theorem geoip_lookup_parses_first_read (e : LookupEnv) (res ip : List Nat) (s : Proc)
    (c : List Nat) (rest : List (List Nat))
    (hp : e.pipeOk = true) (hf : e.forkOk = true) (hr : e.readErr = false)
    (hc : e.chunks = c :: rest) (hne : c ≠ []) :
    (geoip_lookup e res ip s).parsed = c.take 1023
      ∧ (rest.flatten = [] ∨ 1023 ≤ c.length →
          (geoip_lookup e res ip s).parsed = (e.chunks.flatten).take 1023) := by
  have hread : read e (1024 - 1) = (((c.take 1023).length : Int), c.take 1023) := by
    have hemp : c.isEmpty = false := by
      cases c with
      | nil => exact absurd rfl hne
      | cons a t => rfl
    simp [read, hr, hf, hc, List.filter_cons, hemp]
  have hne2 : c.take 1023 ≠ [] := by
    cases c with
    | nil => exact absurd rfl hne
    | cons a t => simp
  have hcap : captures e (c.take 1023) := ⟨hp, hne2, hread⟩
  have hpar := lookup_parsed e res ip s _ hcap
  refine ⟨hpar, ?_⟩
  intro h
  rw [hpar, hc, List.flatten_cons]
  rcases h with h | h
  · rw [h, List.append_nil]
  · rw [List.take_append_of_le_length h]

/-- C8, the amended claim at an input: of the pieces `1.2.3.4 ` and `[Paris] `
the first one is parsed. -/
theorem geoip_lookup_parses_first_read_witness :
    (geoip_lookup (printsInPieces [ascii "1.2.3.4 ", ascii "[Paris] "]) (filled 8) sampleHost
        Proc.init).parsed = (ascii "1.2.3.4 ").take 1023 :=
  (geoip_lookup_parses_first_read (printsInPieces [ascii "1.2.3.4 ", ascii "[Paris] "]) (filled 8)
    sampleHost Proc.init (ascii "1.2.3.4 ") [ascii "[Paris] "] rfl rfl rfl rfl (by decide)).1

/-! ## Children that are never waited for (C9) -/

/-- C9, the code at the failing input: one call of `set_geolocation` with the
tool there ends with the lookup child still in the table of children that
were forked and not waited for. `geoip_lookup` forks and never calls `wait`;
`is_geoip_resource` does wait for the child it forks. -/
theorem set_geolocation_leaves_child :
    runCalls [Call.setGeolocation probeUp (prints sampleOutput) sampleHost (filled 8) (filled 8)
        (filled 20)] Proc.init
      = some ⟨[⟨[ascii "nali", sampleHost], 0⟩], [probeArgv, [ascii "nali", sampleHost]]⟩
    ∧ runCalls [Call.isGeoipResource probeUp, Call.initGeoip probeUp] Proc.init
      = some ⟨[], [probeArgv, probeArgv]⟩ := by
  decide

/-! ## The terminating NUL of the city (C10) -/

/-- C10, the code at the failing input: from `1.2.3.4 [ab] x` the call
returns 0 and stores the 2 bytes `ab` into a city buffer of 8 bytes that
held `ZZZZZZZZ`. The byte at offset 2 is still `Z`, not NUL, and the C string
in the buffer is `abZZZZZZ`; in a buffer that held NUL bytes it is `ab`.
`strncpy` stores no NUL when the source has `n` or more bytes. -/
theorem geoip_lookup_city_not_terminated :
    (geoip_lookup (prints (ascii "1.2.3.4 [ab] x")) (filled 8) sampleHost Proc.init).ret = 0
      ∧ (geoip_lookup (prints (ascii "1.2.3.4 [ab] x")) (filled 8) sampleHost Proc.init).stored = 2
      ∧ (geoip_lookup (prints (ascii "1.2.3.4 [ab] x")) (filled 8) sampleHost Proc.init).city
          = ascii "abZZZZZZ"
      ∧ (geoip_lookup (prints (ascii "1.2.3.4 [ab] x")) (filled 8) sampleHost Proc.init).city[2]?
          = some 90
      ∧ cstring (geoip_lookup (prints (ascii "1.2.3.4 [ab] x")) (filled 8) sampleHost
          Proc.init).city = ascii "abZZZZZZ"
      ∧ cstring (geoip_lookup (prints (ascii "1.2.3.4 [ab] x")) (List.replicate 8 0) sampleHost
          Proc.init).city = ascii "ab" := by
  decide

end Nalicli
